import Mathlib

/-
  Verification of wait-for.c: a utility that blocks until a file exists and
  satisfies a requested combination of read/write/execute permissions for a
  given user identity, using inotify with a polling fallback.

  The development shallowly embeds is_satisfactory and the control flow of
  main; platform calls (stat, getgrouplist, getpwuid, inotify, read, usleep)
  are modelled by passing their outcomes in explicitly.
-/

namespace WaitFor

/-- Owner read permission bit (S_IRUSR, octal 0400). -/
def S_IRUSR : Nat := 0o400

/-- Owner write permission bit (S_IWUSR, octal 0200). -/
def S_IWUSR : Nat := 0o200

/-- Owner execute permission bit (S_IXUSR, octal 0100). -/
def S_IXUSR : Nat := 0o100

/-- Group read permission bit (S_IRGRP, octal 040). -/
def S_IRGRP : Nat := 0o40

/-- Group write permission bit (S_IWGRP, octal 020). -/
def S_IWGRP : Nat := 0o20

/-- Group execute permission bit (S_IXGRP, octal 010). -/
def S_IXGRP : Nat := 0o10

/-- Other read permission bit (S_IROTH, octal 04). -/
def S_IROTH : Nat := 0o4

/-- Other write permission bit (S_IWOTH, octal 02). -/
def S_IWOTH : Nat := 0o2

/-- Other execute permission bit (S_IXOTH, octal 01). -/
def S_IXOTH : Nat := 0o1

/-- The errno values wait-for.c distinguishes, plus a catch-all for every
other errno (carrying its numeric value). -/
inductive Errno
  | ENOENT
  | EACCES
  | ENOTDIR
  | ETXTBSY
  | EINTR
  | other : Nat → Errno
deriving DecidableEq

/-- The fields of `struct stat` that is_satisfactory reads: owner uid,
owner gid and the permission mode bits. -/
structure FileStat where
  st_uid : Nat
  st_gid : Nat
  st_mode : Nat
deriving DecidableEq

/-- Outcome of the stat(2) call on the awaited file: the metadata on
success, or the errno on failure. -/
inductive StatResult
  | ok : FileStat → StatResult
  | err : Errno → StatResult
deriving DecidableEq

/-- The parsed command line flags (`struct cli_args` in wait-for.c);
`username` is `none` when -U was not given. -/
structure CliArgs where
  help : Bool
  execute : Bool
  read : Bool
  write : Bool
  username : Option String
deriving DecidableEq

/-- Capacity of the fixed group buffer in is_satisfactory
(`gid_t groups[32]`, `ngroups = sizeof(groups)/sizeof(groups[0])`). -/
def NGROUPS : Nat := 32

/-- Model of the getgrouplist(3) platform call. `allGroups` is the full
group membership list the account database holds for the pair
(`username`, `gid`), with `gid` itself included; `cap` is the caller's
buffer capacity (the value of `*ngroups` on entry). Per the documented
semantics of getgrouplist, when the full list fits it is stored and the
call succeeds, and when the user is a member of more than `cap` groups the
call stores only `cap` entries and returns -1 (modelled as `none`); -1 is
returned in exactly this truncation case. -/
def getgrouplist ( _username : String) ( _gid : Nat) (allGroups : List Nat)
    (cap : Nat) : Option (List Nat) :=
  if allGroups.length ≤ cap then some allGroups else none

/-- The errno test on the failed stat in is_satisfactory:
`errno == ENOENT || errno == EACCES || errno == ENOTDIR || errno == ETXTBSY`. -/
def transientErrno (e : Errno) : Bool :=
  e == Errno.ENOENT || e == Errno.EACCES || e == Errno.ENOTDIR || e == Errno.ETXTBSY

/-- One `if (satisfied && flag) satisfied = rule;` statement of
is_satisfactory. -/
def step (s flag rule : Bool) : Bool :=
  if s && flag then rule else s

/-- Shallow embedding of `is_satisfactory` from wait-for.c. The outcome of
the stat(2) call on the awaited file is passed as `statRes`, and the
account database's full group list for (`username`, `gid`) as `allGroups`
(consumed by the `getgrouplist` model with the fixed 32-entry buffer).
Returns 1 when the file exists and every requested mode is satisfied, 0
when the condition is not yet satisfied (including transiently failing
stats), and -1 on a fatal error. -/
def is_satisfactory (args : CliArgs) (username : String) (uid gid : Nat)
    (statRes : StatResult) (allGroups : List Nat) : Int :=
  match statRes with
  | StatResult.err e =>
    if transientErrno e then 0 else -1
  | StatResult.ok stats =>
    let is_owner : Bool := stats.st_uid == uid
    match getgrouplist username gid allGroups NGROUPS with
    | none => -1
    | some groups =>
      let is_in_group : Bool := groups.contains stats.st_gid
      let satisfied0 : Bool := true
      let satisfied1 : Bool := step satisfied0 args.read
        ((is_owner && ((stats.st_mode &&& S_IRUSR) != 0))
          || (is_in_group && ((stats.st_mode &&& S_IRGRP) != 0))
          || ((stats.st_mode &&& S_IROTH) != 0))
      let satisfied2 : Bool := step satisfied1 args.write
        ((is_owner && ((stats.st_mode &&& S_IWUSR) != 0))
          || (is_in_group && ((stats.st_mode &&& S_IWGRP) != 0))
          || ((stats.st_mode &&& S_IWOTH) != 0))
      let satisfied3 : Bool := step satisfied2 args.execute
        ((is_owner && ((stats.st_mode &&& S_IXUSR) != 0))
          || (is_in_group && ((stats.st_mode &&& S_IXGRP) != 0))
          || ((stats.st_mode &&& S_IXOTH) != 0))
      if satisfied3 then 1 else 0

/-- Tri-state verdict of one evaluation, named as in the design document:
return value 1 of is_satisfactory is satisfied, 0 is notYet, -1 is fatal. -/
inductive Verdict
  | satisfied
  | notYet
  | fatal
deriving DecidableEq

/-- Verdict view of is_satisfactory. -/
def evaluate (args : CliArgs) (username : String) (uid gid : Nat)
    (statRes : StatResult) (allGroups : List Nat) : Verdict :=
  let r := is_satisfactory args username uid gid statRes allGroups
  if r = 1 then Verdict.satisfied
  else if r = -1 then Verdict.fatal
  else Verdict.notYet

/-- The three access modes a caller may request. -/
inductive Mode
  | read
  | write
  | execute
deriving DecidableEq

/-- Whether a mode was requested on the command line. -/
def requested (args : CliArgs) : Mode → Bool
  | Mode.read => args.read
  | Mode.write => args.write
  | Mode.execute => args.execute

/-- The owner permission bit for a mode. -/
def ownerBit : Mode → Nat
  | Mode.read => S_IRUSR
  | Mode.write => S_IWUSR
  | Mode.execute => S_IXUSR

/-- The group permission bit for a mode. -/
def groupBit : Mode → Nat
  | Mode.read => S_IRGRP
  | Mode.write => S_IWGRP
  | Mode.execute => S_IXGRP

/-- The other permission bit for a mode. -/
def otherBit : Mode → Nat
  | Mode.read => S_IROTH
  | Mode.write => S_IWOTH
  | Mode.execute => S_IXOTH

/-- The owner/group/other rule for one mode, exactly as each of the three
blocks of is_satisfactory computes it. -/
def modeSatisfied (stats : FileStat) (is_owner is_in_group : Bool) (m : Mode) : Bool :=
  (is_owner && ((stats.st_mode &&& ownerBit m) != 0))
    || (is_in_group && ((stats.st_mode &&& groupBit m) != 0))
    || ((stats.st_mode &&& otherBit m) != 0)

lemma steps_chain (r w x R W X : Bool) :
    step (step (step true r R) w W) x X =
      ((!r || R) && ((!w || W) && (!x || X))) := by
  cases r <;> cases w <;> cases x <;> cases R <;> cases W <;> cases X <;> rfl

lemma is_satisfactory_ok (args : CliArgs) (username : String) (uid gid : Nat)
    (stats : FileStat) (allGroups : List Nat) (h : allGroups.length ≤ NGROUPS) :
    is_satisfactory args username uid gid (StatResult.ok stats) allGroups =
      (if (!args.read ||
            modeSatisfied stats (stats.st_uid == uid) (allGroups.contains stats.st_gid) Mode.read)
          && ((!args.write ||
            modeSatisfied stats (stats.st_uid == uid) (allGroups.contains stats.st_gid) Mode.write)
          && (!args.execute ||
            modeSatisfied stats (stats.st_uid == uid) (allGroups.contains stats.st_gid) Mode.execute))
       then 1 else 0) := by
  simp only [is_satisfactory, getgrouplist, h, if_true, steps_chain, modeSatisfied,
    ownerBit, groupBit, otherBit]

lemma evaluate_eq_satisfied_iff (args : CliArgs) (username : String) (uid gid : Nat)
    (statRes : StatResult) (allGroups : List Nat) :
    evaluate args username uid gid statRes allGroups = Verdict.satisfied ↔
      is_satisfactory args username uid gid statRes allGroups = 1 := by
  simp only [evaluate]
  split_ifs with h1 h2
  · simp [h1]
  · rw [h2]
    decide
  · simp [h1]

lemma evaluate_eq_fatal_iff (args : CliArgs) (username : String) (uid gid : Nat)
    (statRes : StatResult) (allGroups : List Nat) :
    evaluate args username uid gid statRes allGroups = Verdict.fatal ↔
      is_satisfactory args username uid gid statRes allGroups = -1 := by
  simp only [evaluate]
  split_ifs with h1 h2
  · rw [h1]
    decide
  · simp [h2]
  · simp [h2]

lemma forall_mode_iff (p : Mode → Prop) :
    (∀ m : Mode, p m) ↔ p Mode.read ∧ p Mode.write ∧ p Mode.execute := by
  constructor
  · intro h
    exact ⟨h _, h _, h _⟩
  · rintro ⟨h1, h2, h3⟩ m
    cases m <;> assumption

/-- C1: for a file whose stat succeeds (and whose owning user's group list
fits the 32-entry buffer, so the mode checks are reached), each requested
mode is deemed satisfied exactly by the rule
(is_owner AND owner bit) OR (is_in_group AND group bit) OR other bit, the
other bit being tested unconditionally; the verdict is satisfied exactly
when every requested mode passes its rule. -/
theorem C1_mode_rule (args : CliArgs) (username : String) (uid gid : Nat)
    (stats : FileStat) (allGroups : List Nat) (h : allGroups.length ≤ NGROUPS) :
    evaluate args username uid gid (StatResult.ok stats) allGroups = Verdict.satisfied ↔
      ∀ m : Mode, requested args m = true →
        modeSatisfied stats (stats.st_uid == uid) (allGroups.contains stats.st_gid) m = true := by
  rw [evaluate_eq_satisfied_iff, is_satisfactory_ok args username uid gid stats allGroups h]
  rw [forall_mode_iff]
  simp only [requested]
  cases hr : args.read <;> cases hw : args.write <;> cases hx : args.execute <;>
    simp

/-- Witness for C1 at a concrete input: a file with mode 0444 owned by
uid 7, checked for reading by uid 7 with an empty group list. -/
theorem C1_mode_rule_witness :
    evaluate { help := false, execute := false, read := true, write := false,
               username := some "u" } "u" 7 7
        (StatResult.ok { st_uid := 7, st_gid := 7, st_mode := 0o444 }) [] = Verdict.satisfied ↔
      ∀ m : Mode,
        requested { help := false, execute := false, read := true, write := false,
                    username := some "u" } m = true →
        modeSatisfied { st_uid := 7, st_gid := 7, st_mode := 0o444 }
          (Nat.beq 7 7) (List.contains [] 7) m = true :=
  C1_mode_rule _ "u" 7 7 _ [] (by decide)

/-- C2: a failed stat yields notYet exactly for the transient errno class
ENOENT, EACCES, ENOTDIR, ETXTBSY, and fatal for every other errno; in
particular a missing file (ENOENT) is notYet, never fatal. -/
theorem C2_transient_stat (args : CliArgs) (username : String) (uid gid : Nat)
    (allGroups : List Nat) (e : Errno) :
    (evaluate args username uid gid (StatResult.err e) allGroups = Verdict.notYet ↔
      (e = Errno.ENOENT ∨ e = Errno.EACCES ∨ e = Errno.ENOTDIR ∨ e = Errno.ETXTBSY)) ∧
    (evaluate args username uid gid (StatResult.err e) allGroups = Verdict.fatal ↔
      ¬(e = Errno.ENOENT ∨ e = Errno.EACCES ∨ e = Errno.ENOTDIR ∨ e = Errno.ETXTBSY)) := by
  cases e <;> simp [evaluate, is_satisfactory, transientErrno]

/-- C3 counterexample: a user who is a member of 33 groups (more than the
32-entry buffer) makes getgrouplist report truncation by returning -1, and
is_satisfactory then returns -1 (fatal) instead of silently dropping the
excess entries and proceeding — even though the file would satisfy the
requested read mode via the other bit. -/
theorem C3_counterexample :
    32 < (List.range 33).length ∧
    evaluate { help := false, execute := false, read := true, write := false,
               username := some "u" } "u" 0 0
        (StatResult.ok { st_uid := 0, st_gid := 0, st_mode := 0o777 })
        (List.range 33) = Verdict.fatal := by
  decide

/-- C3 amended: the group buffer is fixed at 32 entries, and for a file
whose stat succeeds the verdict is fatal exactly when the user's full group
list exceeds that bound — getgrouplist reports truncation by returning -1
and is_satisfactory treats every -1 from getgrouplist as fatal, so
truncation is not silently tolerated. -/
theorem C3_group_truncation_fatal (args : CliArgs) (username : String)
    (uid gid : Nat) (stats : FileStat) (allGroups : List Nat) :
    NGROUPS = 32 ∧
    (evaluate args username uid gid (StatResult.ok stats) allGroups = Verdict.fatal ↔
      NGROUPS < allGroups.length) := by
  refine ⟨rfl, ?_⟩
  rw [evaluate_eq_fatal_iff]
  by_cases h : allGroups.length ≤ NGROUPS
  · rw [is_satisfactory_ok args username uid gid stats allGroups h]
    have hn : ¬ NGROUPS < allGroups.length := by omega
    simp only [hn, iff_false]
    split_ifs <;> decide
  · unfold is_satisfactory getgrouplist
    rw [if_neg h]
    simp
    omega

/-- C4 counterexample: with an empty requested-mode set and a successful
stat, the verdict is still fatal (not satisfied) when the user's group list
exceeds the 32-entry buffer, because the group query runs before the mode
checks on every evaluation. -/
theorem C4_counterexample :
    evaluate { help := false, execute := false, read := false, write := false,
               username := some "u" } "u" 5 5
        (StatResult.ok { st_uid := 5, st_gid := 5, st_mode := 0o777 })
        (List.range 40) = Verdict.fatal ∧
    evaluate { help := false, execute := false, read := false, write := false,
               username := some "u" } "u" 5 5
        (StatResult.ok { st_uid := 5, st_gid := 5, st_mode := 0o777 })
        (List.range 40) ≠ Verdict.satisfied := by
  decide

/-- C4 amended: with an empty requested-mode set, evaluate returns
satisfied whenever the stat succeeds AND the supplementary group-list
query succeeds (the user's full group list fits the 32-entry buffer); the
group query still runs and its failure yields fatal even with no modes
requested. -/
theorem C4_empty_modes_existence (args : CliArgs) (username : String)
    (uid gid : Nat) (stats : FileStat) (allGroups : List Nat)
    (hr : args.read = false) (hw : args.write = false) (hx : args.execute = false)
    (h : allGroups.length ≤ NGROUPS) :
    evaluate args username uid gid (StatResult.ok stats) allGroups = Verdict.satisfied := by
  rw [evaluate_eq_satisfied_iff, is_satisfactory_ok args username uid gid stats allGroups h]
  simp [hr, hw, hx]

/-- Witness for C4 amended at a concrete input. -/
theorem C4_empty_modes_existence_witness :
    evaluate { help := false, execute := false, read := false, write := false,
               username := some "u" } "u" 1 2
        (StatResult.ok { st_uid := 3, st_gid := 4, st_mode := 0 }) [9] = Verdict.satisfied :=
  C4_empty_modes_existence _ "u" 1 2 _ [9] rfl rfl rfl (by decide)

/-- The fields of the passwd record that main reads after
`getpwuid(getuid())`: login name, uid and primary gid. -/
structure Passwd where
  pw_name : String
  pw_uid : Nat
  pw_gid : Nat
deriving DecidableEq

/-- Outcome of the XOPT_SIMPLE_PARSE macro as observed by main:
`parseError` when the parser reported an error (`err != NULL`, e.g. a
malformed flag), `helpRequested` when the help path jumped to the
`xopt_help` label, and `parsed args extrac` on success with the parsed
flags and the count of positional arguments. -/
inductive ParseOutcome
  | parseError
  | helpRequested
  | parsed : CliArgs → Nat → ParseOutcome

/-- Outcome of one read(2) on the inotify descriptor: a byte count
(0 meaning EOF), or -1 with an errno. -/
inductive ReadResult
  | len : Nat → ReadResult
  | errR : Errno → ReadResult
deriving DecidableEq

/-- Observable events of a run of the wait loop: an is_satisfactory call
(recording the username, uid and gid it was passed), a getgrouplist call
inside it (recording the username and gid it was passed), a blocking read
on the inotify descriptor, and a usleep. -/
inductive Event
  | evalE : String → Nat → Nat → Event
  | groupE : String → Nat → Event
  | readE
  | sleepE
deriving DecidableEq

/-- Which wait loop main is driving: the inotify read loop or the usleep
poll loop. -/
inductive LoopMode
  | watching
  | polling
deriving DecidableEq

/-- The environment a run of main observes: the parse outcome, the passwd
lookup result, the contents left in the uninitialized `username` stack
buffer (which main never writes on the -U path), the outcomes of
inotify_init, dirname and inotify_add_watch, and per-evaluation sequences
for the stat of the awaited file, the account database's full group list,
and the inotify reads. -/
structure Env where
  parse : ParseOutcome
  pwd : Option Passwd
  garbageUsername : String
  inotifyInitOk : Bool
  dirnameRes : Option String
  addWatch : Option Errno
  statSeq : Nat → StatResult
  groupsSeq : Nat → List Nat
  readSeq : Nat → ReadResult

/-- Identity resolution in main (lines 173-189 of wait-for.c): with no -U,
getpwuid must succeed (else exit 1) and fills username/uid/gid from the
passwd record; with -U, an empty username exits 2, and otherwise username,
uid and gid are left untouched — the stack buffer keeps its garbage
contents and uid and gid keep their initial value 0. -/
def identityPhase (env : Env) (args : CliArgs) : Except Int (String × Nat × Nat) :=
  match args.username with
  | none =>
    match env.pwd with
    | none => Except.error 1
    | some p => Except.ok (p.pw_name, p.pw_uid, p.pw_gid)
  | some u =>
    if u.length = 0 then Except.error 2 else Except.ok (env.garbageUsername, 0, 0)

/-- How the inotify setup of main ends: abort with exit status 1
(inotify_init failed), enter the watch loop, or fall back to the poll loop
either silently (add_watch failed with ENOENT) or after emitting a warning
(dirname failed, or add_watch failed with any other errno). -/
inductive WatchOutcome
  | abort1
  | watching
  | pollingSilent
  | pollingWarned
deriving DecidableEq

/-- The inotify setup of main (lines 191-214 of wait-for.c): inotify_init
failure is fatal (exit 1); dirname failure falls back to polling with a
warning; inotify_add_watch failure falls back to polling, silently when
errno is ENOENT and with a warning otherwise; on success main enters the
watch loop. -/
def watchPhase (env : Env) : WatchOutcome :=
  if !env.inotifyInitOk then WatchOutcome.abort1
  else
    match env.dirnameRes with
    | none => WatchOutcome.pollingWarned
    | some _ =>
      match env.addWatch with
      | none => WatchOutcome.watching
      | some e =>
        if e = Errno.ENOENT then WatchOutcome.pollingSilent
        else WatchOutcome.pollingWarned

/-- Result of the setup portion of main, before any wait loop: either an
immediate exit with a status, or entry into one of the two loops with the
resolved identity; the Bool records whether a setup warning was emitted. -/
inductive SetupResult
  | exitWith : Int → SetupResult
  | enterLoop : LoopMode → CliArgs → String → Nat → Nat → Bool → SetupResult
deriving DecidableEq

/-- The setup portion of main (lines 134-214 of wait-for.c), in source
order: a parser error exits 1, the help path exits 2, a positional
argument count other than 1 exits 2, then identity resolution, then the
inotify setup. -/
def setup (env : Env) : SetupResult :=
  match env.parse with
  | ParseOutcome.parseError => SetupResult.exitWith 1
  | ParseOutcome.helpRequested => SetupResult.exitWith 2
  | ParseOutcome.parsed args extrac =>
    if extrac ≠ 1 then SetupResult.exitWith 2
    else
      match identityPhase env args with
      | Except.error s => SetupResult.exitWith s
      | Except.ok (u, a, b) =>
        match watchPhase env with
        | WatchOutcome.abort1 => SetupResult.exitWith 1
        | WatchOutcome.watching => SetupResult.enterLoop LoopMode.watching args u a b false
        | WatchOutcome.pollingSilent => SetupResult.enterLoop LoopMode.polling args u a b false
        | WatchOutcome.pollingWarned => SetupResult.enterLoop LoopMode.polling args u a b true

/-- The events one is_satisfactory call emits: the call itself, then one
getgrouplist query exactly when the stat succeeded. -/
def evalTrace (username : String) (uid gid : Nat) (statRes : StatResult) : List Event :=
  Event.evalE username uid gid ::
    (match statRes with
     | StatResult.ok _ => [Event.groupE username gid]
     | StatResult.err _ => [])

/-- The read handling of the watch loop (lines 235-246 of wait-for.c):
a zero-length read is fatal (exit status 1), a failed read is fatal (exit
status 1) for every errno — EINTR included — and a positive-length read
makes the loop continue (`none`). -/
def wait_for_event (r : ReadResult) : Option Int :=
  match r with
  | ReadResult.len 0 => some 1
  | ReadResult.errR _ => some 1
  | ReadResult.len _ => none

/-- One of the two wait loops of main, run with explicit fuel: each
iteration calls is_satisfactory on the current stat and group list
(exiting 0 on 1, exiting 1 on -1), then either blocks on the inotify read
(watch loop) or sleeps (poll loop) and re-evaluates. Returns the exit
status (`none` when the fuel ran out first) together with the emitted
event trace. -/
def loopRunTr (env : Env) (mode : LoopMode) (args : CliArgs) (username : String)
    (uid gid : Nat) : Nat → Nat → Option Int × List Event
  | _, 0 => (none, [])
  | i, fuel + 1 =>
    let r := is_satisfactory args username uid gid (env.statSeq i) (env.groupsSeq i)
    let evs := evalTrace username uid gid (env.statSeq i)
    if r = 1 then (some 0, evs)
    else if r = -1 then (some 1, evs)
    else
      match mode with
      | LoopMode.watching =>
        match wait_for_event (env.readSeq i) with
        | some s => (some s, evs ++ [Event.readE])
        | none =>
          let p := loopRunTr env mode args username uid gid (i + 1) fuel
          (p.1, evs ++ Event.readE :: p.2)
      | LoopMode.polling =>
        let p := loopRunTr env mode args username uid gid (i + 1) fuel
        (p.1, evs ++ Event.sleepE :: p.2)

/-- Exit status of a fuel-bounded loop run. -/
def loopRun (env : Env) (mode : LoopMode) (args : CliArgs) (username : String)
    (uid gid : Nat) (i fuel : Nat) : Option Int :=
  (loopRunTr env mode args username uid gid i fuel).1

/-- A fuel-bounded run of main: setup followed, when setup enters a loop,
by that loop, returning the exit status and the event trace. -/
def mainRunTr (env : Env) (fuel : Nat) : Option Int × List Event :=
  match setup env with
  | SetupResult.exitWith s => (some s, [])
  | SetupResult.enterLoop mode args u a b _ => loopRunTr env mode args u a b 0 fuel

/-- Exit status of a fuel-bounded run of main. -/
def mainRun (env : Env) (fuel : Nat) : Option Int :=
  (mainRunTr env fuel).1

/-- Whether an event suspends the process (a blocking inotify read or a
usleep). -/
def isSusp : Event → Bool
  | Event.readE => true
  | Event.sleepE => true
  | _ => false

/-- Whether an event is an is_satisfactory call. -/
def isEval : Event → Bool
  | Event.evalE _ _ _ => true
  | _ => false

/-- Every suspension in the trace, except one the trace ends on, is
immediately followed by an is_satisfactory call. -/
def wakeupsChecked : List Event → Bool
  | [] => true
  | [_] => true
  | e :: e2 :: rest => (!isSusp e || isEval e2) && wakeupsChecked (e2 :: rest)

/-- Number of getgrouplist queries in a trace. -/
def countGroup (l : List Event) : Nat :=
  l.countP (fun e =>
    match e with
    | Event.groupE _ _ => true
    | _ => false)

lemma loopRunTr_fuel_zero (env : Env) (mode : LoopMode) (args : CliArgs)
    (u : String) (a b i : Nat) :
    loopRunTr env mode args u a b i 0 = (none, []) := rfl

lemma loopRunTr_succ (env : Env) (mode : LoopMode) (args : CliArgs)
    (u : String) (a b i f : Nat) :
    loopRunTr env mode args u a b i (f + 1) =
      (if is_satisfactory args u a b (env.statSeq i) (env.groupsSeq i) = 1 then
        (some 0, evalTrace u a b (env.statSeq i))
      else if is_satisfactory args u a b (env.statSeq i) (env.groupsSeq i) = -1 then
        (some 1, evalTrace u a b (env.statSeq i))
      else
        match mode with
        | LoopMode.watching =>
          match wait_for_event (env.readSeq i) with
          | some s => (some s, evalTrace u a b (env.statSeq i) ++ [Event.readE])
          | none =>
            ((loopRunTr env mode args u a b (i + 1) f).1,
              evalTrace u a b (env.statSeq i) ++
                Event.readE :: (loopRunTr env mode args u a b (i + 1) f).2)
        | LoopMode.polling =>
          ((loopRunTr env mode args u a b (i + 1) f).1,
            evalTrace u a b (env.statSeq i) ++
              Event.sleepE :: (loopRunTr env mode args u a b (i + 1) f).2)) := rfl

lemma wait_for_event_some (r : ReadResult) (s : Int)
    (h : wait_for_event r = some s) : s = 1 := by
  cases r with
  | len n =>
    cases n with
    | zero =>
      simp [wait_for_event] at h
      omega
    | succ m => simp [wait_for_event] at h
  | errR e =>
    simp [wait_for_event] at h
    omega

lemma loopRunTr_head (env : Env) (mode : LoopMode) (args : CliArgs) (u : String)
    (a b : Nat) (i fuel : Nat) (hf : 0 < fuel) :
    (loopRunTr env mode args u a b i fuel).2.head? = some (Event.evalE u a b) := by
  cases fuel with
  | zero => omega
  | succ f =>
    rw [loopRunTr_succ]
    by_cases h1 : is_satisfactory args u a b (env.statSeq i) (env.groupsSeq i) = 1
    · simp [h1, evalTrace]
    · by_cases h2 : is_satisfactory args u a b (env.statSeq i) (env.groupsSeq i) = -1
      · simp [h1, h2, evalTrace]
      · cases mode with
        | watching =>
          cases hw : wait_for_event (env.readSeq i) with
          | some s => simp [h1, h2, hw, evalTrace]
          | none => simp [h1, h2, hw, evalTrace]
        | polling => simp [h1, h2, evalTrace]

lemma is_satisfactory_cases (args : CliArgs) (username : String) (uid gid : Nat)
    (statRes : StatResult) (allGroups : List Nat) :
    is_satisfactory args username uid gid statRes allGroups = -1 ∨
    is_satisfactory args username uid gid statRes allGroups = 0 ∨
    is_satisfactory args username uid gid statRes allGroups = 1 := by
  cases statRes with
  | err e =>
    simp only [is_satisfactory]
    split_ifs <;> simp
  | ok stats =>
    by_cases h : allGroups.length ≤ NGROUPS
    · rw [is_satisfactory_ok args username uid gid stats allGroups h]
      split_ifs <;> simp
    · simp only [is_satisfactory, getgrouplist, if_neg h]
      simp

lemma identityPhase_error (env : Env) (args : CliArgs) (s : Int)
    (h : identityPhase env args = Except.error s) : s = 1 ∨ s = 2 := by
  unfold identityPhase at h
  cases hu : args.username with
  | none =>
    rw [hu] at h
    cases hp : env.pwd with
    | none =>
      rw [hp] at h
      simp at h
      omega
    | some p =>
      rw [hp] at h
      simp at h
  | some u =>
    rw [hu] at h
    by_cases hl : u.length = 0
    · simp [hl] at h
      omega
    · simp [hl] at h

lemma setup_exit_status (env : Env) (s : Int)
    (h : setup env = SetupResult.exitWith s) : s = 1 ∨ s = 2 := by
  unfold setup at h
  cases hp : env.parse with
  | parseError =>
    rw [hp] at h
    simp at h
    omega
  | helpRequested =>
    rw [hp] at h
    simp at h
    omega
  | parsed args k =>
    rw [hp] at h
    by_cases hk : k = 1
    · subst hk
      cases hi : identityPhase env args with
      | error s2 =>
        simp [hi] at h
        rcases identityPhase_error env args s2 hi with h2 | h2 <;> omega
      | ok t =>
        obtain ⟨u, a, b⟩ := t
        cases hw : watchPhase env with
        | abort1 =>
          simp [hi, hw] at h
          omega
        | watching => simp [hi, hw] at h
        | pollingSilent => simp [hi, hw] at h
        | pollingWarned => simp [hi, hw] at h
    · simp [hk] at h
      omega

lemma loopRun_zero_iff (env : Env) (mode : LoopMode) (args : CliArgs)
    (u : String) (a b : Nat) (fuel : Nat) : ∀ i,
    ((loopRunTr env mode args u a b i fuel).1 = some 0 ↔
      ∃ k, k < fuel ∧
        is_satisfactory args u a b (env.statSeq (i + k)) (env.groupsSeq (i + k)) = 1 ∧
        ∀ m, m < k →
          is_satisfactory args u a b (env.statSeq (i + m)) (env.groupsSeq (i + m)) = 0 ∧
          (mode = LoopMode.watching → wait_for_event (env.readSeq (i + m)) = none)) := by
  induction fuel with
  | zero =>
    intro i
    constructor
    · intro h
      rw [loopRunTr_fuel_zero] at h
      simp at h
    · rintro ⟨k, hk, _⟩
      omega
  | succ f ih =>
    intro i
    rw [loopRunTr_succ]
    by_cases h1 : is_satisfactory args u a b (env.statSeq i) (env.groupsSeq i) = 1
    · rw [if_pos h1]
      constructor
      · intro _
        refine ⟨0, by omega, by simpa using h1, ?_⟩
        intro m hm
        exact absurd hm (Nat.not_lt_zero m)
      · intro _
        rfl
    · rw [if_neg h1]
      by_cases h2 : is_satisfactory args u a b (env.statSeq i) (env.groupsSeq i) = -1
      · rw [if_pos h2]
        constructor
        · intro h
          simp at h
        · rintro ⟨k, hk, hsat, hall⟩
          exfalso
          cases k with
          | zero =>
            rw [Nat.add_zero] at hsat
            exact h1 hsat
          | succ k2 =>
            have hm := (hall 0 (by omega)).1
            rw [Nat.add_zero] at hm
            rw [hm] at h2
            exact absurd h2 (by decide)
      · rw [if_neg h2]
        have h0 : is_satisfactory args u a b (env.statSeq i) (env.groupsSeq i) = 0 := by
          rcases is_satisfactory_cases args u a b (env.statSeq i) (env.groupsSeq i) with
            hc | hc | hc
          · exact absurd hc h2
          · exact hc
          · exact absurd hc h1
        cases mode with
        | watching =>
          cases hw : wait_for_event (env.readSeq i) with
          | some s =>
            have hs := wait_for_event_some _ _ hw
            subst hs
            constructor
            · intro h
              simp at h
            · rintro ⟨k, hk, hsat, hall⟩
              exfalso
              cases k with
              | zero =>
                rw [Nat.add_zero] at hsat
                exact h1 hsat
              | succ k2 =>
                have hm := (hall 0 (by omega)).2 rfl
                rw [Nat.add_zero] at hm
                rw [hw] at hm
                simp at hm
          | none =>
            constructor
            · intro h
              have h3 : (loopRunTr env LoopMode.watching args u a b (i + 1) f).1 = some 0 := h
              obtain ⟨k, hk, hsat, hall⟩ := (ih (i + 1)).mp h3
              refine ⟨k + 1, by omega, ?_, ?_⟩
              · have he : i + (k + 1) = (i + 1) + k := by omega
                rw [he]
                exact hsat
              · intro m hm
                cases m with
                | zero =>
                  rw [Nat.add_zero]
                  exact ⟨h0, fun _ => hw⟩
                | succ m2 =>
                  have hmm := hall m2 (by omega)
                  have he : i + (m2 + 1) = (i + 1) + m2 := by omega
                  rw [he]
                  exact hmm
            · rintro ⟨k, hk, hsat, hall⟩
              cases k with
              | zero =>
                rw [Nat.add_zero] at hsat
                exact absurd hsat h1
              | succ k2 =>
                show (loopRunTr env LoopMode.watching args u a b (i + 1) f).1 = some 0
                apply (ih (i + 1)).mpr
                refine ⟨k2, by omega, ?_, ?_⟩
                · have he : (i + 1) + k2 = i + (k2 + 1) := by omega
                  rw [he]
                  exact hsat
                · intro m hm
                  have hmm := hall (m + 1) (by omega)
                  have he : i + (m + 1) = (i + 1) + m := by omega
                  rw [he] at hmm
                  exact hmm
        | polling =>
          constructor
          · intro h
            have h3 : (loopRunTr env LoopMode.polling args u a b (i + 1) f).1 = some 0 := h
            obtain ⟨k, hk, hsat, hall⟩ := (ih (i + 1)).mp h3
            refine ⟨k + 1, by omega, ?_, ?_⟩
            · have he : i + (k + 1) = (i + 1) + k := by omega
              rw [he]
              exact hsat
            · intro m hm
              cases m with
              | zero =>
                rw [Nat.add_zero]
                refine ⟨h0, ?_⟩
                intro hcon
                exact absurd hcon (by simp)
              | succ m2 =>
                have hmm := hall m2 (by omega)
                have he : i + (m2 + 1) = (i + 1) + m2 := by omega
                rw [he]
                exact hmm
          · rintro ⟨k, hk, hsat, hall⟩
            cases k with
            | zero =>
              rw [Nat.add_zero] at hsat
              exact absurd hsat h1
            | succ k2 =>
              show (loopRunTr env LoopMode.polling args u a b (i + 1) f).1 = some 0
              apply (ih (i + 1)).mpr
              refine ⟨k2, by omega, ?_, ?_⟩
              · have he : (i + 1) + k2 = i + (k2 + 1) := by omega
                rw [he]
                exact hsat
              · intro m hm
                have hmm := hall (m + 1) (by omega)
                have he : i + (m + 1) = (i + 1) + m := by omega
                rw [he] at hmm
                exact hmm

/-- Every event a loop run may emit carries the identity the loop was
entered with. -/
def identOK (u : String) (a b : Nat) : Event → Prop
  | Event.evalE u2 a2 b2 => u2 = u ∧ a2 = a ∧ b2 = b
  | Event.groupE u2 b2 => u2 = u ∧ b2 = b
  | _ => True

lemma evalTrace_identOK (u : String) (a b : Nat) (s : StatResult) :
    ∀ e ∈ evalTrace u a b s, identOK u a b e := by
  cases s <;> simp [evalTrace, identOK]

lemma loopRunTr_identOK (env : Env) (mode : LoopMode) (args : CliArgs)
    (u : String) (a b : Nat) (fuel : Nat) : ∀ i,
    ∀ e ∈ (loopRunTr env mode args u a b i fuel).2, identOK u a b e := by
  induction fuel with
  | zero =>
    intro i e he
    simp [loopRunTr] at he
  | succ f ih =>
    intro i e he
    rw [loopRunTr_succ] at he
    by_cases h1 : is_satisfactory args u a b (env.statSeq i) (env.groupsSeq i) = 1
    · rw [if_pos h1] at he
      exact evalTrace_identOK u a b _ e he
    · rw [if_neg h1] at he
      by_cases h2 : is_satisfactory args u a b (env.statSeq i) (env.groupsSeq i) = -1
      · rw [if_pos h2] at he
        exact evalTrace_identOK u a b _ e he
      · rw [if_neg h2] at he
        cases mode with
        | watching =>
          cases hw : wait_for_event (env.readSeq i) with
          | some s =>
            rw [hw] at he
            rcases List.mem_append.mp he with h3 | h3
            · exact evalTrace_identOK u a b _ e h3
            · simp at h3
              subst h3
              trivial
          | none =>
            rw [hw] at he
            rcases List.mem_append.mp he with h3 | h3
            · exact evalTrace_identOK u a b _ e h3
            · rcases List.mem_cons.mp h3 with h4 | h4
              · subst h4
                trivial
              · exact ih (i + 1) e h4
        | polling =>
          rcases List.mem_append.mp he with h3 | h3
          · exact evalTrace_identOK u a b _ e h3
          · rcases List.mem_cons.mp h3 with h4 | h4
            · subst h4
              trivial
            · exact ih (i + 1) e h4

lemma evalTrace_nonsusp (u : String) (a b : Nat) (s : StatResult) :
    ∀ e ∈ evalTrace u a b s, isSusp e = false := by
  cases s <;> simp [evalTrace, isSusp]

lemma wakeupsChecked_cons_nonsusp (e : Event) (l : List Event)
    (h : isSusp e = false) :
    wakeupsChecked (e :: l) = wakeupsChecked l := by
  cases l with
  | nil => simp [wakeupsChecked]
  | cons e2 rest => simp [wakeupsChecked, h]

lemma wakeupsChecked_append_nonsusp (l1 l2 : List Event)
    (h : ∀ e ∈ l1, isSusp e = false) :
    wakeupsChecked (l1 ++ l2) = wakeupsChecked l2 := by
  induction l1 with
  | nil => rfl
  | cons e rest ih =>
    rw [List.cons_append, wakeupsChecked_cons_nonsusp e _ (h e (List.mem_cons_self e rest))]
    exact ih (fun x hx => h x (List.mem_cons_of_mem e hx))

lemma wakeupsChecked_of_nonsusp (l : List Event)
    (h : ∀ e ∈ l, isSusp e = false) : wakeupsChecked l = true := by
  have h2 := wakeupsChecked_append_nonsusp l [] h
  simpa using h2

lemma loopRunTr_wakeups (env : Env) (mode : LoopMode) (args : CliArgs)
    (u : String) (a b : Nat) (fuel : Nat) : ∀ i,
    wakeupsChecked (loopRunTr env mode args u a b i fuel).2 = true := by
  induction fuel with
  | zero =>
    intro i
    rfl
  | succ f ih =>
    intro i
    rw [loopRunTr_succ]
    by_cases h1 : is_satisfactory args u a b (env.statSeq i) (env.groupsSeq i) = 1
    · rw [if_pos h1]
      exact wakeupsChecked_of_nonsusp _ (evalTrace_nonsusp u a b _)
    · rw [if_neg h1]
      by_cases h2 : is_satisfactory args u a b (env.statSeq i) (env.groupsSeq i) = -1
      · rw [if_pos h2]
        exact wakeupsChecked_of_nonsusp _ (evalTrace_nonsusp u a b _)
      · rw [if_neg h2]
        cases mode with
        | watching =>
          cases hw : wait_for_event (env.readSeq i) with
          | some s =>
            show wakeupsChecked (evalTrace u a b (env.statSeq i) ++ [Event.readE]) = true
            rw [wakeupsChecked_append_nonsusp _ _ (evalTrace_nonsusp u a b _)]
            rfl
          | none =>
            show wakeupsChecked (evalTrace u a b (env.statSeq i) ++
              Event.readE :: (loopRunTr env LoopMode.watching args u a b (i + 1) f).2) = true
            rw [wakeupsChecked_append_nonsusp _ _ (evalTrace_nonsusp u a b _)]
            cases htail : (loopRunTr env LoopMode.watching args u a b (i + 1) f).2 with
            | nil => rfl
            | cons e2 rest =>
              have hf : 0 < f := by
                cases f with
                | zero => simp [loopRunTr] at htail
                | succ f2 => omega
              have hhead := loopRunTr_head env LoopMode.watching args u a b (i + 1) f hf
              rw [htail] at hhead
              simp only [List.head?_cons, Option.some.injEq] at hhead
              have ht := ih (i + 1)
              rw [htail] at ht
              subst hhead
              rw [wakeupsChecked]
              simp [isSusp, isEval, ht]
        | polling =>
          show wakeupsChecked (evalTrace u a b (env.statSeq i) ++
            Event.sleepE :: (loopRunTr env LoopMode.polling args u a b (i + 1) f).2) = true
          rw [wakeupsChecked_append_nonsusp _ _ (evalTrace_nonsusp u a b _)]
          cases htail : (loopRunTr env LoopMode.polling args u a b (i + 1) f).2 with
          | nil => rfl
          | cons e2 rest =>
            have hf : 0 < f := by
              cases f with
              | zero => simp [loopRunTr] at htail
              | succ f2 => omega
            have hhead := loopRunTr_head env LoopMode.polling args u a b (i + 1) f hf
            rw [htail] at hhead
            simp only [List.head?_cons, Option.some.injEq] at hhead
            have ht := ih (i + 1)
            rw [htail] at ht
            subst hhead
            rw [wakeupsChecked]
            simp [isSusp, isEval, ht]

lemma setup_parsed_one (env : Env) (args : CliArgs) (u : String) (a b : Nat)
    (hp : env.parse = ParseOutcome.parsed args 1)
    (hid : identityPhase env args = Except.ok (u, a, b)) :
    setup env =
      match watchPhase env with
      | WatchOutcome.abort1 => SetupResult.exitWith 1
      | WatchOutcome.watching => SetupResult.enterLoop LoopMode.watching args u a b false
      | WatchOutcome.pollingSilent => SetupResult.enterLoop LoopMode.polling args u a b false
      | WatchOutcome.pollingWarned => SetupResult.enterLoop LoopMode.polling args u a b true := by
  simp only [setup, hp, hid, ne_eq]
  simp

/-- Command line with no requested mode and a non-empty -U username. -/
def argsU : CliArgs :=
  { help := false, execute := false, read := false, write := false, username := some "u" }

/-- Command line requesting read, with a non-empty -U username. -/
def argsR : CliArgs :=
  { help := false, execute := false, read := true, write := false, username := some "u" }

/-- A concrete environment whose command line parse fails (malformed flag). -/
def envParseErr : Env :=
  { parse := ParseOutcome.parseError, pwd := none, garbageUsername := "g",
    inotifyInitOk := true, dirnameRes := some ".", addWatch := none,
    statSeq := fun _ => StatResult.err Errno.ENOENT,
    groupsSeq := fun _ => [], readSeq := fun _ => ReadResult.len 1 }

/-- A concrete environment where inotify_init fails. -/
def envInitFail : Env :=
  { parse := ParseOutcome.parsed argsU 1, pwd := none, garbageUsername := "g",
    inotifyInitOk := false, dirnameRes := some ".", addWatch := none,
    statSeq := fun _ => StatResult.err Errno.ENOENT,
    groupsSeq := fun _ => [], readSeq := fun _ => ReadResult.len 1 }

/-- A concrete environment where inotify_add_watch fails with ENOENT and
the awaited file never appears. -/
def envWatchEnoent : Env :=
  { parse := ParseOutcome.parsed argsU 1, pwd := none, garbageUsername := "g",
    inotifyInitOk := true, dirnameRes := some ".", addWatch := some Errno.ENOENT,
    statSeq := fun _ => StatResult.err Errno.ENOENT,
    groupsSeq := fun _ => [], readSeq := fun _ => ReadResult.len 1 }

/-- A concrete environment that polls forever: the file exists but is never
readable by the checked identity. -/
def envRepeat : Env :=
  { parse := ParseOutcome.parsed argsR 1, pwd := none, garbageUsername := "g",
    inotifyInitOk := true, dirnameRes := some ".", addWatch := some Errno.ENOENT,
    statSeq := fun _ => StatResult.ok { st_uid := 1, st_gid := 1, st_mode := 0 },
    groupsSeq := fun _ => [], readSeq := fun _ => ReadResult.len 1 }

/-- A concrete environment whose file satisfies the condition at startup. -/
def envSat : Env :=
  { parse := ParseOutcome.parsed argsU 1, pwd := none, garbageUsername := "g",
    inotifyInitOk := true, dirnameRes := some ".", addWatch := some Errno.ENOENT,
    statSeq := fun _ => StatResult.ok { st_uid := 0, st_gid := 0, st_mode := 0 },
    groupsSeq := fun _ => [], readSeq := fun _ => ReadResult.len 1 }

/-- C5 counterexample: a malformed command line (the parser reports an
error) makes main exit with status 1, not with the usage status 2 the
claim requires for every usage error. -/
theorem C5_counterexample :
    mainRun envParseErr 1 = some 1 ∧ mainRun envParseErr 1 ≠ some 2 := by
  decide

/-- C5 amended: main exits 1 on a parser error (malformed flags, not the
usage code 2), 2 on the help path, 2 on a positional argument count other
than one, 2 on an empty -U username; it exits 1 on the runtime failures —
passwd lookup failure, inotify_init failure, a fatal evaluation, and a
zero-length or failed notification read after a not-yet evaluation; and
its exit status is 0 exactly when the run entered a wait loop and reached
an evaluation that returned satisfied, every earlier evaluation returning
not-yet with, in the watch loop, a continuing read. -/
theorem C5_exit_codes (env : Env) (fuel : Nat) :
    (env.parse = ParseOutcome.parseError → mainRun env fuel = some 1) ∧
    (env.parse = ParseOutcome.helpRequested → mainRun env fuel = some 2) ∧
    (∀ args k, env.parse = ParseOutcome.parsed args k → k ≠ 1 →
      mainRun env fuel = some 2) ∧
    (∀ args, env.parse = ParseOutcome.parsed args 1 → args.username = some "" →
      mainRun env fuel = some 2) ∧
    (∀ args, env.parse = ParseOutcome.parsed args 1 → args.username = none →
      env.pwd = none → mainRun env fuel = some 1) ∧
    (∀ args u a b, env.parse = ParseOutcome.parsed args 1 →
      identityPhase env args = Except.ok (u, a, b) →
      env.inotifyInitOk = false → mainRun env fuel = some 1) ∧
    (∀ mode args u a b w, setup env = SetupResult.enterLoop mode args u a b w →
      is_satisfactory args u a b (env.statSeq 0) (env.groupsSeq 0) = -1 →
      0 < fuel → mainRun env fuel = some 1) ∧
    (∀ args u a b w, setup env = SetupResult.enterLoop LoopMode.watching args u a b w →
      is_satisfactory args u a b (env.statSeq 0) (env.groupsSeq 0) = 0 →
      wait_for_event (env.readSeq 0) = some 1 →
      0 < fuel → mainRun env fuel = some 1) ∧
    (mainRun env fuel = some 0 ↔
      ∃ mode args u a b w, setup env = SetupResult.enterLoop mode args u a b w ∧
        ∃ k, k < fuel ∧
          is_satisfactory args u a b (env.statSeq k) (env.groupsSeq k) = 1 ∧
          ∀ m, m < k →
            is_satisfactory args u a b (env.statSeq m) (env.groupsSeq m) = 0 ∧
            (mode = LoopMode.watching → wait_for_event (env.readSeq m) = none)) := by
  refine ⟨?_, ?_, ?_, ?_, ?_, ?_, ?_, ?_, ?_⟩
  · intro h
    simp [mainRun, mainRunTr, setup, h]
  · intro h
    simp [mainRun, mainRunTr, setup, h]
  · intro args k h hk
    simp [mainRun, mainRunTr, setup, h, hk]
  · intro args h hu
    simp [mainRun, mainRunTr, setup, h, identityPhase, hu]
  · intro args h hu hp
    simp [mainRun, mainRunTr, setup, h, identityPhase, hu, hp]
  · intro args u a b h hid hio
    rw [mainRun, mainRunTr, setup_parsed_one env args u a b h hid]
    simp [watchPhase, hio]
  · intro mode args u a b w hs hf hfuel
    cases fuel with
    | zero => omega
    | succ f =>
      have h1 : ¬ is_satisfactory args u a b (env.statSeq 0) (env.groupsSeq 0) = 1 := by
        rw [hf]
        decide
      simp only [mainRun, mainRunTr, hs]
      rw [loopRunTr_succ, if_neg h1, if_pos hf]
  · intro args u a b w hs h0 hr hfuel
    cases fuel with
    | zero => omega
    | succ f =>
      have h1 : ¬ is_satisfactory args u a b (env.statSeq 0) (env.groupsSeq 0) = 1 := by
        rw [h0]
        decide
      have h2 : ¬ is_satisfactory args u a b (env.statSeq 0) (env.groupsSeq 0) = -1 := by
        rw [h0]
        decide
      simp only [mainRun, mainRunTr, hs]
      rw [loopRunTr_succ, if_neg h1, if_neg h2, hr]
  · constructor
    · intro h
      cases hs : setup env with
      | exitWith s =>
        have hms : mainRun env fuel = some s := by
          simp [mainRun, mainRunTr, hs]
        rw [hms] at h
        simp at h
        rcases setup_exit_status env s hs with h2 | h2 <;> omega
      | enterLoop mode args u a b w =>
        have h3 : (loopRunTr env mode args u a b 0 fuel).1 = some 0 := by
          simpa [mainRun, mainRunTr, hs] using h
        obtain ⟨k, hk, hsat, hall⟩ := (loopRun_zero_iff env mode args u a b fuel 0).mp h3
        refine ⟨mode, args, u, a, b, w, rfl, k, hk, by simpa using hsat, ?_⟩
        intro m hm
        have hmm := hall m hm
        simpa using hmm
    · rintro ⟨mode, args, u, a, b, w, hs, k, hk, hsat, hall⟩
      have h3 : (loopRunTr env mode args u a b 0 fuel).1 = some 0 := by
        apply (loopRun_zero_iff env mode args u a b fuel 0).mpr
        refine ⟨k, hk, by simpa using hsat, ?_⟩
        intro m hm
        have hmm := hall m hm
        simpa using hmm
      simp [mainRun, mainRunTr, hs, h3]

/-- Witness for C5 amended: the parser-error case at a concrete input. -/
theorem C5_exit_codes_witness : mainRun envParseErr 1 = some 1 :=
  (C5_exit_codes envParseErr 1).1 rfl

/-- C6 counterexample: when creating the inotify channel itself
(inotify_init) fails, main aborts with exit status 1 instead of
falling back to the polling session. -/
theorem C6_counterexample :
    setup envInitFail = SetupResult.exitWith 1 ∧ mainRun envInitFail 5 = some 1 := by
  decide

/-- C6 amended: once the command line parsed and the identity resolved, a
dirname failure falls back to polling with a warning, an
inotify_add_watch failure with ENOENT falls back to polling silently, an
inotify_add_watch failure with any other errno falls back to polling with
a warning — but an inotify_init failure aborts with exit status 1 rather
than falling back. -/
theorem C6_setup_fallback (env : Env) (args : CliArgs) (u : String) (a b : Nat)
    (hp : env.parse = ParseOutcome.parsed args 1)
    (hid : identityPhase env args = Except.ok (u, a, b)) :
    (env.inotifyInitOk = false → setup env = SetupResult.exitWith 1) ∧
    (env.inotifyInitOk = true → env.dirnameRes = none →
      setup env = SetupResult.enterLoop LoopMode.polling args u a b true) ∧
    (∀ d, env.inotifyInitOk = true → env.dirnameRes = some d →
      env.addWatch = some Errno.ENOENT →
      setup env = SetupResult.enterLoop LoopMode.polling args u a b false) ∧
    (∀ d e2, env.inotifyInitOk = true → env.dirnameRes = some d →
      env.addWatch = some e2 → e2 ≠ Errno.ENOENT →
      setup env = SetupResult.enterLoop LoopMode.polling args u a b true) := by
  rw [setup_parsed_one env args u a b hp hid]
  refine ⟨?_, ?_, ?_, ?_⟩
  · intro h
    simp [watchPhase, h]
  · intro h hd
    simp [watchPhase, h, hd]
  · intro d h hd haw
    simp [watchPhase, h, hd, haw]
  · intro d e2 h hd haw hne
    simp [watchPhase, h, hd, haw, hne]

/-- Witness for C6 amended: the silent ENOENT fallback at a concrete
environment. -/
theorem C6_setup_fallback_witness :
    setup envWatchEnoent = SetupResult.enterLoop LoopMode.polling argsU "g" 0 0 false :=
  (C6_setup_fallback envWatchEnoent argsU "g" 0 0 rfl rfl).2.2.1 "." rfl rfl rfl

/-- C7 counterexample: an inotify read failing with the benign interrupt
errno EINTR terminates the watch loop fatally (exit status 1) instead of
letting the loop continue as the claim states. -/
theorem C7_counterexample :
    wait_for_event (ReadResult.errR Errno.EINTR) = some 1 ∧
    wait_for_event (ReadResult.errR Errno.EINTR) ≠ none := by
  decide

/-- C7 amended: in the watch loop, waiting for an event signals a fatal
exit with status 1 exactly when the read returned zero length or failed
with any errno — EINTR included — and the loop continues exactly on a
positive-length read; after a not-yet evaluation the loop's outcome is
decided by exactly this rule. -/
theorem C7_read_outcomes (env : Env) (args : CliArgs) (u : String)
    (a b i fuel : Nat)
    (h0 : is_satisfactory args u a b (env.statSeq i) (env.groupsSeq i) = 0) :
    (∀ r : ReadResult,
      (wait_for_event r = some 1 ↔
        (r = ReadResult.len 0 ∨ ∃ e, r = ReadResult.errR e)) ∧
      (wait_for_event r = none ↔ ∃ n, r = ReadResult.len (n + 1))) ∧
    (loopRun env LoopMode.watching args u a b i (fuel + 1) =
      match wait_for_event (env.readSeq i) with
      | some s => some s
      | none => loopRun env LoopMode.watching args u a b (i + 1) fuel) := by
  constructor
  · intro r
    cases r with
    | len n =>
      cases n with
      | zero => constructor <;> simp [wait_for_event]
      | succ m => constructor <;> simp [wait_for_event]
    | errR e => constructor <;> simp [wait_for_event]
  · have h1 : ¬ is_satisfactory args u a b (env.statSeq i) (env.groupsSeq i) = 1 := by
      rw [h0]
      decide
    have h2 : ¬ is_satisfactory args u a b (env.statSeq i) (env.groupsSeq i) = -1 := by
      rw [h0]
      decide
    rw [loopRun, loopRunTr_succ, if_neg h1, if_neg h2]
    cases hw : wait_for_event (env.readSeq i) with
    | some s => simp [loopRun]
    | none => simp [loopRun]

/-- Witness for C7 amended at a concrete environment whose first
evaluation is not yet satisfied. -/
theorem C7_read_outcomes_witness :
    loopRun envWatchEnoent LoopMode.watching argsU "g" 0 0 0 1 =
      match wait_for_event (envWatchEnoent.readSeq 0) with
      | some s => some s
      | none => loopRun envWatchEnoent LoopMode.watching argsU "g" 0 0 1 0 :=
  (C7_read_outcomes envWatchEnoent argsU "g" 0 0 0 0 (by decide)).2

/-- C8 counterexample: a run of three polling iterations performs three
getgrouplist queries — the supplementary group list is re-derived at every
evaluation, not computed exactly once before the loop. -/
theorem C8_counterexample :
    countGroup (mainRunTr envRepeat 3).2 = 3 ∧
    ¬ countGroup (mainRunTr envRepeat 3).2 ≤ 1 := by
  decide

/-- C8 amended: the username, uid and gid are fixed when the loop is
entered and every evaluation event of a run carries exactly those values;
the supplementary group list however is not part of that fixed context —
each is_satisfactory call performs its own getgrouplist query exactly when
its stat succeeds. -/
theorem C8_identity_once_groups_per_eval (env : Env) (mode : LoopMode)
    (args : CliArgs) (u : String) (a b i fuel : Nat) :
    (∀ u2 a2 b2, Event.evalE u2 a2 b2 ∈ (loopRunTr env mode args u a b i fuel).2 →
      u2 = u ∧ a2 = a ∧ b2 = b) ∧
    (∀ u2 b2, Event.groupE u2 b2 ∈ (loopRunTr env mode args u a b i fuel).2 →
      u2 = u ∧ b2 = b) ∧
    (∀ s : FileStat, countGroup (evalTrace u a b (StatResult.ok s)) = 1) ∧
    (∀ e : Errno, countGroup (evalTrace u a b (StatResult.err e)) = 0) := by
  refine ⟨?_, ?_, ?_, ?_⟩
  · intro u2 a2 b2 hm
    have h := loopRunTr_identOK env mode args u a b fuel i _ hm
    simpa [identOK] using h
  · intro u2 b2 hm
    have h := loopRunTr_identOK env mode args u a b fuel i _ hm
    simpa [identOK] using h
  · intro s
    simp [countGroup, evalTrace, List.countP_cons, List.countP_nil]
  · intro e
    simp [countGroup, evalTrace, List.countP_cons, List.countP_nil]

/-- Witness for C8 amended: the evaluation event of a concrete one-step
run carries the identity the loop was entered with. -/
theorem C8_identity_once_groups_per_eval_witness :
    ("g" : String) = "g" ∧ (0 : Nat) = 0 ∧ (0 : Nat) = 0 :=
  (C8_identity_once_groups_per_eval envRepeat LoopMode.polling argsR "g" 0 0 0 1).1
    "g" 0 0 (by decide)

/-- C9: in both loops the trace of a run begins with an evaluation (the
predicate runs before the first suspension), every suspension that is
followed by anything is immediately followed by an evaluation (the
predicate runs right after every wakeup), and when the very first
evaluation is already satisfied the run exits 0 with a trace containing
no suspension at all — it never blocks. -/
theorem C9_eval_brackets_suspensions (env : Env) (mode : LoopMode)
    (args : CliArgs) (u : String) (a b i fuel : Nat) :
    (0 < fuel →
      (loopRunTr env mode args u a b i fuel).2.head? = some (Event.evalE u a b)) ∧
    wakeupsChecked (loopRunTr env mode args u a b i fuel).2 = true ∧
    (is_satisfactory args u a b (env.statSeq i) (env.groupsSeq i) = 1 → 0 < fuel →
      (loopRunTr env mode args u a b i fuel).1 = some 0 ∧
      ∀ e ∈ (loopRunTr env mode args u a b i fuel).2, isSusp e = false) := by
  refine ⟨fun hf => loopRunTr_head env mode args u a b i fuel hf,
    loopRunTr_wakeups env mode args u a b fuel i, ?_⟩
  intro h1 hf
  cases fuel with
  | zero => omega
  | succ f =>
    rw [loopRunTr_succ, if_pos h1]
    exact ⟨rfl, evalTrace_nonsusp u a b _⟩

/-- Witness for C9 at a concrete environment whose file satisfies the
condition at startup: the run exits 0 without ever suspending. -/
theorem C9_eval_brackets_suspensions_witness :
    (loopRunTr envSat LoopMode.polling argsU "g" 0 0 0 1).1 = some 0 ∧
    ∀ e ∈ (loopRunTr envSat LoopMode.polling argsU "g" 0 0 0 1).2, isSusp e = false :=
  (C9_eval_brackets_suspensions envSat LoopMode.polling argsU "g" 0 0 0 1).2.2
    (by decide) (by decide)

/-- C10: with a non-empty -U username the identity phase leaves uid and
gid at their initial value 0 (and the username buffer at its garbage
contents), and every is_satisfactory call and every getgrouplist query of
the whole run is passed uid 0 and gid 0, whatever the passwd database
holds. -/
theorem C10_username_leaves_uid_gid_zero (env : Env) (args : CliArgs)
    (u : String) (fuel : Nat) (hp : env.parse = ParseOutcome.parsed args 1)
    (hu : args.username = some u) (hlen : u.length ≠ 0) :
    identityPhase env args = Except.ok (env.garbageUsername, 0, 0) ∧
    (∀ u2 a2 b2, Event.evalE u2 a2 b2 ∈ (mainRunTr env fuel).2 →
      a2 = 0 ∧ b2 = 0) ∧
    (∀ u2 b2, Event.groupE u2 b2 ∈ (mainRunTr env fuel).2 → b2 = 0) := by
  have hid : identityPhase env args = Except.ok (env.garbageUsername, 0, 0) := by
    simp [identityPhase, hu, hlen]
  have hms : ∀ e ∈ (mainRunTr env fuel).2, identOK env.garbageUsername 0 0 e := by
    intro e he
    rw [mainRunTr, setup_parsed_one env args env.garbageUsername 0 0 hp hid] at he
    cases hw : watchPhase env with
    | abort1 =>
      rw [hw] at he
      simp at he
    | watching =>
      rw [hw] at he
      exact loopRunTr_identOK env LoopMode.watching args env.garbageUsername 0 0 fuel 0 e he
    | pollingSilent =>
      rw [hw] at he
      exact loopRunTr_identOK env LoopMode.polling args env.garbageUsername 0 0 fuel 0 e he
    | pollingWarned =>
      rw [hw] at he
      exact loopRunTr_identOK env LoopMode.polling args env.garbageUsername 0 0 fuel 0 e he
  refine ⟨hid, ?_, ?_⟩
  · intro u2 a2 b2 hm
    have h := hms _ hm
    simp only [identOK] at h
    exact ⟨h.2.1, h.2.2⟩
  · intro u2 b2 hm
    have h := hms _ hm
    simp only [identOK] at h
    exact h.2

/-- Witness for C10 at a concrete environment with -U "u". -/
theorem C10_username_leaves_uid_gid_zero_witness :
    identityPhase envRepeat argsR = Except.ok (envRepeat.garbageUsername, 0, 0) :=
  (C10_username_leaves_uid_gid_zero envRepeat argsR "u" 1 rfl rfl (by decide)).1

end WaitFor
